import Mathlib

/-!
Shallow embedding of the nibabies graph-assembly and transform-composition
code (interfaces/patches.py, workflows/anatomical/{registration,preproc,
surfaces,brain_extraction}.py), together with theorems settling the frozen
claims about it.

A workflow graph is modelled as a list of nodes (name plus an interface
descriptor string capturing the fixed parameters the source sets on the
node) and a list of edges (source node/port to destination node/port,
mirroring each `workflow.connect` entry of the source).
-/

namespace Nibabies

/-- A nipype `pe.Node`: unique name plus an interface descriptor recording
the interface class and the statically-set parameters. -/
structure WfNode where
  name : String
  iface : String
deriving DecidableEq, Repr

/-- A nipype connection `(src, srcport) -> (dst, dstport)`; `srcport` may
carry a field selector, written like the source tuple, e.g. `(outdir, _parent)`. -/
structure WfEdge where
  src : String
  srcport : String
  dst : String
  dstport : String
deriving DecidableEq, Repr

/-- An assembled nipype workflow graph. -/
structure Workflow where
  name : String
  nodes : List WfNode
  edges : List WfEdge
deriving DecidableEq, Repr

/-- Whether a node with the given name is present in the graph. -/
def hasNode (w : Workflow) (n : String) : Bool :=
  w.nodes.any (fun nd => nd.name == n)

/-- Number of inbound connections of the port `(node, field)`. -/
def inEdges (w : Workflow) (node field : String) : Nat :=
  (w.edges.filter (fun e => e.dst == node && e.dstport == field)).length

/-- Membership of a specific edge in the graph. -/
def hasEdge (w : Workflow) (e : WfEdge) : Bool :=
  w.edges.contains e

/-- Structural identity of two workflow graphs: same name, same node list
(names and parameters), same edge list. -/
def wfStructEq (g h : Workflow) : Bool :=
  decide (g.name = h.name ∧ g.nodes = h.nodes ∧ g.edges = h.edges)

/-- Structural identity lifted to fallible builders: equal error messages,
or structurally identical graphs. -/
def wfResultStructEq : Except String Workflow → Except String Workflow → Bool
  | Except.error e, Except.error f => decide (e = f)
  | Except.ok g, Except.ok h => wfStructEq g h
  | _, _ => false

/-! ### ConcatXFM (interfaces/patches.py)

`ConcatXFM._get_transform_filenames` builds the `--transform` arguments of
the `antsApplyTransforms` command line: one argument per transform, in
declaration order, wrapping a transform as `[ t, 1 ]` when its invert flag
is set.  An absent/empty invert-flag list defaults every flag to False; a
present non-empty list of a different length than the transforms list
raises a ValueError. -/

/-- One `--transform` command-line argument, as formatted by the loop body of
`_get_transform_filenames`. -/
def xfmArg (t : String) (invert : Bool) : String :=
  if invert then "--transform [ " ++ t ++ ", 1 ]" else "--transform " ++ t

/-- Python `' '.join`. -/
def joinSpace : List String → String
  | [] => ""
  | [s] => s
  | s :: rest => s ++ " " ++ joinSpace rest

/-- Embedding of `ConcatXFM._get_transform_filenames`: the full transforms argument
string, or the ValueError message on an invert-flag arity mismatch.
The `invert` list being `[]` models the trait being unset or empty (both
are falsy in the source's `if not invert_flags`). -/
def getTransformFilenames (transforms : List String) (invert : List Bool) :
    Except String String :=
  if invert.isEmpty then
    Except.ok (joinSpace (List.zipWith xfmArg transforms
      (List.replicate transforms.length false)))
  else if transforms.length ≠ invert.length then
    Except.error ("ERROR: The invert_transform_flags list must have the same number "
      ++ "of entries as the transforms list.")
  else
    Except.ok (joinSpace (List.zipWith xfmArg transforms invert))

/-- The transform chain actually passed to the external tool: each transform
paired with its (defaulted) invert flag, in declaration order. -/
def effectiveChain (transforms : List String) (invert : List Bool) :
    List (String × Bool) :=
  if invert.isEmpty then
    List.zip transforms (List.replicate transforms.length false)
  else
    List.zip transforms invert

/-- Modelled from the spec and the `transforms` trait's own description
("will be applied in reverse order. For example, the last specified
transform will be applied first"): the external tool applies the chain with
the last-declared transform innermost.  `apply t i x` is the opaque action
of transform `t` with invert flag `i` on `x`. -/
def applyChain {α : Type} (apply : String → Bool → α → α)
    (chain : List (String × Bool)) (x : α) : α :=
  chain.foldr (fun p acc => apply p.1 p.2 acc) x

/-! ### init_coregistration_wf (workflows/anatomical/registration.py)

The builder assembles the common co-registration core, then instantiates
exactly one mask-handling branch: the precomputed-T1w-mask branch when
`t1w_mask` is set (early return), else the probability-map branch when
`probmap` is set (early return), else the precomputed-discrete-mask
fallback. -/

/-- Declared output fields of `init_coregistration_wf`'s outputnode. -/
def coregOutputFields : List String :=
  ["t1w_preproc", "t1w_brain", "t1w_mask", "t1w2t2w_xfm", "t2w2t1w_xfm", "t2w_preproc"]

/-- Embedding of `init_coregistration_wf`: the assembled graph, as a function of the
arguments that shape its structure and node parameters. -/
def init_coregistration_wf (bspline_fitting_distance : Nat) (sloppy debug : Bool)
    (t1w_mask probmap : Bool) (name : String) : Workflow :=
  let coregIface : String :=
    "Registration(from_file=data/within_subject_t1t2.json, float=" ++ toString sloppy
      ++ (if debug then
            ", args=--write-interval-volumes 5, output_inverse_warped_image="
              ++ toString sloppy ++ ", output_warped_image=" ++ toString sloppy
          else "")
      ++ ")"
  let n4Iface : String :=
    "N4BiasFieldCorrection(dimension=3, bspline_fitting_distance="
      ++ toString bspline_fitting_distance
      ++ ", save_bias, copy_header, n_iterations=[50]*5, convergence_threshold=1e-7,"
      ++ " rescale_intensities, shrink_factor=4)"
  let commonNodes : List WfNode :=
    [ ⟨"inputnode", "IdentityInterface(in_t1w, in_t2w, in_mask, in_probmap)"⟩,
      ⟨"outputnode", "IdentityInterface(t1w_preproc, t1w_brain, t1w_mask, "
        ++ "t1w2t2w_xfm, t2w2t1w_xfm, t2w_preproc)"⟩,
      ⟨"fixed_masks_arg", "Merge(3)"⟩,
      ⟨"reg_mask", "BinaryDilation(radius=8, iterations=3)"⟩,
      ⟨"refine_mask", "BinaryDilation(radius=8, iterations=1)"⟩,
      ⟨"coreg", coregIface⟩,
      ⟨"final_n4", n4Iface⟩,
      ⟨"map_t2w", "ApplyTransforms(interpolation=BSpline)"⟩,
      ⟨"apply_mask", "ApplyMask()"⟩ ]
  let commonEdges : List WfEdge :=
    [ ⟨"inputnode", "in_t1w", "final_n4", "input_image"⟩,
      ⟨"inputnode", "in_t1w", "coreg", "moving_image"⟩,
      ⟨"inputnode", "in_t2w", "coreg", "fixed_image"⟩,
      ⟨"reg_mask", "out_file", "fixed_masks_arg", "in1"⟩,
      ⟨"reg_mask", "out_file", "fixed_masks_arg", "in2"⟩,
      ⟨"refine_mask", "out_file", "fixed_masks_arg", "in3"⟩,
      ⟨"inputnode", "in_t1w", "map_t2w", "reference_image"⟩,
      ⟨"inputnode", "in_t2w", "map_t2w", "input_image"⟩,
      ⟨"fixed_masks_arg", "out", "coreg", "fixed_image_masks"⟩,
      ⟨"coreg", "reverse_transforms", "map_t2w", "transforms"⟩,
      ⟨"coreg", "reverse_invert_flags", "map_t2w", "invert_transform_flags"⟩,
      ⟨"final_n4", "output_image", "apply_mask", "in_file"⟩,
      ⟨"final_n4", "output_image", "outputnode", "t1w_preproc"⟩,
      ⟨"map_t2w", "output_image", "outputnode", "t2w_preproc"⟩,
      ⟨"apply_mask", "out_file", "outputnode", "t1w_brain"⟩,
      ⟨"coreg", "forward_transforms", "outputnode", "t1w2t2w_xfm"⟩,
      ⟨"coreg", "reverse_transforms", "outputnode", "t2w2t1w_xfm"⟩ ]
  if t1w_mask then
    { name := name,
      nodes := commonNodes ++ [⟨"t2w_masker", "BrainExtraction()"⟩],
      edges := commonEdges ++
        [ ⟨"inputnode", "in_t2w", "t2w_masker", "in_file"⟩,
          ⟨"t2w_masker", "out_mask", "reg_mask", "in_file"⟩,
          ⟨"t2w_masker", "out_mask", "refine_mask", "in_file"⟩,
          ⟨"inputnode", "in_mask", "apply_mask", "in_mask"⟩,
          ⟨"inputnode", "in_mask", "outputnode", "t1w_mask"⟩ ] }
  else if probmap then
    { name := name,
      nodes := commonNodes ++
        [ ⟨"map_mask", "ApplyTransforms(interpolation=Gaussian)"⟩,
          ⟨"thr_mask", "Binarize(thresh_low=0.80)"⟩ ],
      edges := commonEdges ++
        [ ⟨"inputnode", "in_mask", "reg_mask", "in_file"⟩,
          ⟨"inputnode", "in_mask", "refine_mask", "in_file"⟩,
          ⟨"inputnode", "in_t1w", "map_mask", "reference_image"⟩,
          ⟨"inputnode", "in_probmap", "map_mask", "input_image"⟩,
          ⟨"coreg", "reverse_transforms", "map_mask", "transforms"⟩,
          ⟨"coreg", "reverse_invert_flags", "map_mask", "invert_transform_flags"⟩,
          ⟨"map_mask", "output_image", "thr_mask", "in_file"⟩,
          ⟨"map_mask", "output_image", "final_n4", "weight_image"⟩,
          ⟨"thr_mask", "out_mask", "outputnode", "t1w_mask"⟩,
          ⟨"thr_mask", "out_mask", "apply_mask", "in_mask"⟩ ] }
  else
    { name := name,
      nodes := commonNodes ++
        [⟨"map_precomp_mask", "ApplyTransforms(interpolation=MultiLabel)"⟩],
      edges := commonEdges ++
        [ ⟨"inputnode", "in_mask", "reg_mask", "in_file"⟩,
          ⟨"inputnode", "in_mask", "refine_mask", "in_file"⟩,
          ⟨"inputnode", "in_t1w", "map_precomp_mask", "reference_image"⟩,
          ⟨"inputnode", "in_mask", "map_precomp_mask", "input_image"⟩,
          ⟨"coreg", "reverse_transforms", "map_precomp_mask", "transforms"⟩,
          ⟨"coreg", "reverse_invert_flags", "map_precomp_mask", "invert_transform_flags"⟩,
          ⟨"map_precomp_mask", "output_image", "final_n4", "weight_image"⟩,
          ⟨"map_precomp_mask", "output_image", "outputnode", "t1w_mask"⟩,
          ⟨"map_precomp_mask", "output_image", "apply_mask", "in_mask"⟩ ] }

/-! ### init_coregister_derivatives_wf (workflows/anatomical/registration.py)

Three additive branches gated by independent flags: `t1w_mask` adds node
`t1wmask2t2w` feeding output `t2w_mask`; `t1w_aseg` adds `t1waseg2t2w`
feeding output `t2w_aseg`; `t2w_aseg` adds `t2waseg2t1w` feeding output
`t1w_aseg`. -/

/-- Embedding of `init_coregister_derivatives_wf`. -/
def init_coregister_derivatives_wf (t1w_mask t1w_aseg t2w_aseg : Bool)
    (name : String) : Workflow :=
  let baseNodes : List WfNode :=
    [ ⟨"inputnode", "IdentityInterface(t1w_ref, t2w_ref, t1w2t2w_xfm, t1w_mask, "
        ++ "t1w_aseg, t2w_aseg)"⟩,
      ⟨"outputnode", "IdentityInterface(t2w_mask, t1w_aseg, t2w_aseg)"⟩ ]
  let maskNodes : List WfNode :=
    if t1w_mask then [⟨"t1wmask2t2w", "ApplyTransforms(interpolation=MultiLabel)"⟩] else []
  let maskEdges : List WfEdge :=
    if t1w_mask then
      [ ⟨"inputnode", "t1w_mask", "t1wmask2t2w", "input_image"⟩,
        ⟨"inputnode", "t1w2t2w_xfm", "t1wmask2t2w", "transforms"⟩,
        ⟨"inputnode", "t2w_ref", "t1wmask2t2w", "reference_image"⟩,
        ⟨"t1wmask2t2w", "output_image", "outputnode", "t2w_mask"⟩ ]
    else []
  let t1asegNodes : List WfNode :=
    if t1w_aseg then [⟨"t1waseg2t2w", "ApplyTransforms(interpolation=MultiLabel)"⟩] else []
  let t1asegEdges : List WfEdge :=
    if t1w_aseg then
      [ ⟨"inputnode", "t1w_aseg", "t1waseg2t2w", "input_image"⟩,
        ⟨"inputnode", "t1w2t2w_xfm", "t1waseg2t2w", "transforms"⟩,
        ⟨"inputnode", "t2w_ref", "t1waseg2t2w", "reference_image"⟩,
        ⟨"t1waseg2t2w", "output_image", "outputnode", "t2w_aseg"⟩ ]
    else []
  let t2asegNodes : List WfNode :=
    if t2w_aseg then
      [⟨"t2waseg2t1w", "ApplyTransforms(interpolation=MultiLabel, "
        ++ "invert_transform_flags=[True, False])"⟩]
    else []
  let t2asegEdges : List WfEdge :=
    if t2w_aseg then
      [ ⟨"inputnode", "t2w_aseg", "t2waseg2t1w", "input_image"⟩,
        ⟨"inputnode", "t1w2t2w_xfm", "t2waseg2t1w", "transforms"⟩,
        ⟨"inputnode", "t1w_ref", "t2waseg2t1w", "reference_image"⟩,
        ⟨"t2waseg2t1w", "output_image", "outputnode", "t1w_aseg"⟩ ]
    else []
  { name := name,
    nodes := baseNodes ++ maskNodes ++ t1asegNodes ++ t2asegNodes,
    edges := maskEdges ++ t1asegEdges ++ t2asegEdges }

/-! ### init_concat_registrations_wf (workflows/anatomical/registration.py)

The builder wires MapNodes that replicate, per entry of `templates`, the
concatenation of the native-to-intermediate transform with the
intermediate-to-template transform, alongside the template name and
specifier extracted from the same entry.  The per-element operations
`TemplateDesc` (split a fullname into name and spec) and `_fmt_cohort`
(re-format name and spec) live in smriprep and are external collaborators,
so they are opaque function parameters here; `load.readable` likewise. -/

/-- Embedding of `_load_intermediate_xfms` (registration.py): resolve the
intermediate-to-std and std-to-intermediate transform files. -/
def load_intermediate_xfms (readable : String → String)
    (intermediate std : String) : String × String :=
  let intmed := intermediate.replace ":cohort-" "+"
  (readable ("tpl_xfms/from-" ++ intmed ++ "_to-" ++ std ++ "_xfm.h5"),
   readable ("tpl_xfms/from-" ++ std ++ "_to-" ++ intmed ++ "_xfm.h5"))

/-- The count-driven dataflow of `init_concat_registrations_wf`'s MapNodes:
`intermed_xfms` maps `_load_intermediate_xfms` over the template list,
`merge_anat2std` pairs each intermediate-to-std transform with the incoming
`anat2std_xfm` (the transforms list handed to the `concat_anat2std`
ConcatXFM instance, i.e. the structural composite), `split_desc` and
`fmt_cohort` map the name/spec extraction over the same template list.
Returns (composites, template names, template specs). -/
def init_concat_registrations_dataflow
    (splitName splitSpec : String → String)
    (fmtName fmtSpec : String → String → String)
    (readable : String → String)
    (templates : List String) (intermediate anat2std_xfm : String) :
    List (List String) × List String × List String :=
  let int2std := templates.map
    (fun std => (load_intermediate_xfms readable intermediate std).1)
  let merged := int2std.map (fun t => [t, anat2std_xfm])
  let names := templates.map splitName
  let specs := templates.map splitSpec
  (merged, List.zipWith fmtName names specs, List.zipWith fmtSpec names specs)

/-! ### Template-spec resolution in init_infant_brain_extraction_wf
(workflows/anatomical/brain_extraction.py, lines 89-99)

`template_specs` is a Python dict, modelled as an association list.
`template_specs = template_specs or {}` makes the function operate on the
caller's own dict exactly when a non-empty dict was passed (a `None` or
empty dict argument is replaced by a fresh dict).  The function then sets
`resolution` in place when the template is MNIInfant, and sets `cohort` in
place when no truthy cohort is present (raising when `age_months` is also
absent).  `cohort_by_months` (nibabies.utils.misc, not part of the graph
code) is an opaque function parameter. -/

/-- Python dict of template specifications (key-value list, insertion order). -/
abbrev Specs := List (String × Nat)

/-- Python `d.get(k)`: the first value bound to `k`, if any. -/
def lookupSpec : Specs → String → Option Nat
  | [], _ => none
  | (k, v) :: rest, key => if k == key then some v else lookupSpec rest key

/-- Python `d[k] = v`: replace the value in place if the key exists,
else append the new binding. -/
def setSpec : Specs → String → Nat → Specs
  | [], key, v => [(key, v)]
  | (k, v0) :: rest, key, v =>
      if k == key then (k, v) :: rest else (k, v0) :: setSpec rest key v

/-- Python `not template_specs.get("cohort")`: no cohort key, or a falsy
(zero) cohort value. -/
def cohortMissing (d : Specs) : Bool :=
  match lookupSpec d "cohort" with
  | none => true
  | some v => v == 0

/-- The dict the function body operates on: the caller's dict when it is a
non-empty dict, else a fresh empty dict (`template_specs = template_specs or {}`). -/
def usedDict : Option Specs → Specs
  | none => []
  | some d => if d.isEmpty then [] else d

/-- The `resolution` update: set to 2 (sloppy) or 1 when the skull-strip
template is MNIInfant. -/
def afterResolution (skull : String) (sloppy : Bool) (d : Specs) : Specs :=
  if skull == "MNIInfant" then setSpec d "resolution" (if sloppy then 2 else 1) else d

/-- The full in-place mutation the function performs on the dict it operates
on: the resolution update, then the cohort update when the cohort is
missing and an age is available (when the age is also absent the function
raises, leaving the dict with only the resolution update). -/
def mutateSpecs (cohortByMonths : String → Nat → Nat) (skull : String)
    (sloppy : Bool) (age : Option Nat) (d : Specs) : Specs :=
  let d1 := afterResolution skull sloppy d
  if cohortMissing d1 then
    match age with
    | none => d1
    | some a => setSpec d1 "cohort" (cohortByMonths skull a)
  else d1

/-- The resolved template specs used by the rest of the builder, or the
KeyError raised when neither a cohort nor an age is available. -/
def resolveTemplateSpecs (cohortByMonths : String → Nat → Nat) (skull : String)
    (sloppy : Bool) (age : Option Nat) (specs0 : Option Specs) :
    Except String Specs :=
  let d1 := afterResolution skull sloppy (usedDict specs0)
  if cohortMissing d1 then
    match age with
    | none => Except.error ("Age or cohort for " ++ skull ++ " must be provided!")
    | some a => Except.ok (setSpec d1 "cohort" (cohortByMonths skull a))
  else Except.ok d1

/-- The caller's `template_specs` argument after the call: untouched when
`None` or an empty dict was passed (the body swapped in a fresh dict),
mutated in place otherwise. -/
def callerSpecsAfter (cohortByMonths : String → Nat → Nat) (skull : String)
    (sloppy : Bool) (age : Option Nat) (specs0 : Option Specs) : Option Specs :=
  specs0.map (fun d => if d.isEmpty then d else mutateSpecs cohortByMonths skull sloppy age d)

/-! ### init_infant_brain_extraction_wf (workflows/anatomical/brain_extraction.py)

Template lookups (`templateflow.api.get`) are external collaborators,
modelled as an opaque function from a lookup descriptor and the resolved
specs to an optional path (`none` models a falsy/no-match result). -/

/-- Values of `ants_affine_init`: Python `False` / `True` / `"random"` / `"search"`. -/
inductive AntsInit
  | disabled
  | enabled
  | random
  | search
deriving DecidableEq, Repr

/-- Embedding of `init_infant_brain_extraction_wf`: template-spec resolution and template
lookups (each of which fails fast, before any node is created), then the
assembled graph. -/
def init_infant_brain_extraction_wf
    (cohortByMonths : String → Nat → Nat)
    (getTemplate : String → Specs → Option String)
    (age_months : Option Nat) (ants_affine_init : AntsInit)
    (bspline_fitting_distance : Nat) (sloppy : Bool)
    (skull_strip_template : String) (template_specs : Option Specs)
    (name : String) : Except String Workflow := do
  let specs ← resolveTemplateSpecs cohortByMonths skull_strip_template sloppy
    age_months template_specs
  let tplTarget ← match getTemplate "suffix-T1w" specs with
    | none => Except.error ("An instance of template <tpl-" ++ skull_strip_template
        ++ "> with T1w suffix could not be found.")
    | some p => Except.ok p
  let tplBrainmask : Option String :=
    (getTemplate "label-brain_suffix-probseg" specs).orElse
      (fun _ => getTemplate "desc-brain_suffix-mask" specs)
  let tplRegmask : Option String :=
    getTemplate "label-BrainCerebellumExtraction_suffix-mask" specs
  let n4Iface : String :=
    "N4BiasFieldCorrection(dimension=3, bspline_fitting_distance="
      ++ toString bspline_fitting_distance
      ++ ", save_bias, copy_header, n_iterations=[50]*5, convergence_threshold=1e-7,"
      ++ " rescale_intensities, shrink_factor=4)"
  let normIface : String :=
    "Registration(from_file=antsBrainExtraction_"
      ++ (if sloppy then "testing" else "precise") ++ ".json, float=" ++ toString sloppy
      ++ (match tplRegmask with
          | some p => ", fixed_image_masks=" ++ p
          | none => "")
      ++ ")"
  let mapMaskIface : String :=
    "ApplyTransforms(interpolation=Gaussian, float=True, input_image="
      ++ (match tplBrainmask with
          | some p => p
          | none => "None")
      ++ ")"
  let mainNodes : List WfNode :=
    [ ⟨"inputnode", "IdentityInterface(in_t2w)"⟩,
      ⟨"outputnode", "IdentityInterface(t2w_preproc, t2w_brain, out_mask, out_probmap)"⟩,
      ⟨"clip_tmpl", "IntensityClip(in_file=" ++ tplTarget ++ ")"⟩,
      ⟨"lap_tmpl", "ImageMath(operation=Laplacian, op2=0.4 1)"⟩,
      ⟨"lap_t2w", "ImageMath(operation=Laplacian, op2=0.4 1)"⟩,
      ⟨"norm_lap_tmpl", "IntensityClip()"⟩,
      ⟨"norm_lap_t2w", "IntensityClip()"⟩,
      ⟨"mrg_tmpl", "Merge(2)"⟩,
      ⟨"mrg_t2w", "Merge(2)"⟩,
      ⟨"norm", normIface⟩,
      ⟨"map_mask_t2w", mapMaskIface⟩,
      ⟨"thr_t2w_mask", "Binarize(thresh_low=0.80)"⟩,
      ⟨"bspline_grid", "Function(_bspline_distance)"⟩,
      ⟨"final_n4", n4Iface⟩,
      ⟨"final_clip", "IntensityClip(p_min=5.0, p_max=98.0)"⟩,
      ⟨"apply_mask", "ApplyMask()"⟩ ]
  let mainEdges : List WfEdge :=
    [ ⟨"inputnode", "in_t2w", "bspline_grid", "in_file"⟩,
      ⟨"inputnode", "in_t2w", "final_n4", "input_image"⟩,
      ⟨"inputnode", "in_t2w", "mrg_t2w", "in1"⟩,
      ⟨"inputnode", "in_t2w", "lap_t2w", "op1"⟩,
      ⟨"inputnode", "in_t2w", "map_mask_t2w", "reference_image"⟩,
      ⟨"lap_t2w", "output_image", "norm_lap_t2w", "in_file"⟩,
      ⟨"norm_lap_t2w", "out_file", "mrg_t2w", "in2"⟩,
      ⟨"clip_tmpl", "out_file", "lap_tmpl", "op1"⟩,
      ⟨"lap_tmpl", "output_image", "norm_lap_tmpl", "in_file"⟩,
      ⟨"clip_tmpl", "out_file", "mrg_tmpl", "in1"⟩,
      ⟨"norm_lap_tmpl", "out_file", "mrg_tmpl", "in2"⟩,
      ⟨"mrg_tmpl", "out", "norm", "fixed_image"⟩,
      ⟨"mrg_t2w", "out", "norm", "moving_image"⟩,
      ⟨"norm", "reverse_transforms", "map_mask_t2w", "transforms"⟩,
      ⟨"norm", "reverse_invert_flags", "map_mask_t2w", "invert_transform_flags"⟩,
      ⟨"map_mask_t2w", "output_image", "thr_t2w_mask", "in_file"⟩,
      ⟨"thr_t2w_mask", "out_mask", "apply_mask", "in_mask"⟩,
      ⟨"final_n4", "output_image", "apply_mask", "in_file"⟩,
      ⟨"bspline_grid", "out", "final_n4", "args"⟩,
      ⟨"map_mask_t2w", "output_image", "final_n4", "weight_image"⟩,
      ⟨"final_n4", "output_image", "final_clip", "in_file"⟩,
      ⟨"final_clip", "out_file", "outputnode", "t2w_preproc"⟩,
      ⟨"map_mask_t2w", "output_image", "outputnode", "out_probmap"⟩,
      ⟨"thr_t2w_mask", "out_mask", "outputnode", "out_mask"⟩,
      ⟨"apply_mask", "out_file", "outputnode", "t2w_brain"⟩ ]
  let initAffNodes : List WfNode :=
    if ants_affine_init = AntsInit.disabled then []
    else
      [ ⟨"init_aff", "AI(metric="
          ++ (if ants_affine_init = AntsInit.random then "(Mattes, 32, Random, 0.2)"
              else "(Mattes, 32, Regular, 0.2)")
          ++ ", transform=(Affine, 0.1), search_factor=(20, 0.12), "
          ++ "convergence=(10, 1e-6, 10), search_grid="
          ++ (if ants_affine_init = AntsInit.search then "(20, (20, 40, 40))"
              else "(40, (0, 40, 40))")
          ++ (match tplRegmask with
              | some p => ", fixed_image_mask=" ++ p
              | none => "")
          ++ ")"⟩ ]
  let initAffEdges : List WfEdge :=
    if ants_affine_init = AntsInit.disabled then []
    else
      [ ⟨"clip_tmpl", "out_file", "init_aff", "fixed_image"⟩,
        ⟨"inputnode", "in_t2w", "init_aff", "moving_image"⟩,
        ⟨"init_aff", "output_transform", "norm", "initial_moving_transform"⟩ ]
  Except.ok
    { name := name,
      nodes := mainNodes ++ initAffNodes,
      edges := mainEdges ++ initAffEdges }

/-! ### init_preproc_anat_wf (workflows/anatomical/preproc.py) -/

/-- Embedding of `init_preproc_anat_wf`: intensity clipping, denoising, N4 correction
and a final clip, wired linearly. -/
def init_preproc_anat_wf (bspline_fitting_distance : Nat) (name : String) : Workflow :=
  { name := name,
    nodes :=
      [ ⟨"inputnode", "IdentityInterface(in_anat)"⟩,
        ⟨"outputnode", "IdentityInterface(anat_preproc)"⟩,
        ⟨"clip", "IntensityClip(p_min=10.0, p_max=99.5)"⟩,
        ⟨"denoise", "DenoiseImage(dimension=3, noise_model=Rician)"⟩,
        ⟨"n4_correct", "N4BiasFieldCorrection(dimension=3, bspline_fitting_distance="
          ++ toString bspline_fitting_distance
          ++ ", save_bias, copy_header, n_iterations=[50]*5, "
          ++ "convergence_threshold=1e-7, rescale_intensities, shrink_factor=4)"⟩,
        ⟨"final_clip", "IntensityClip(p_min=5.0, p_max=99.5)"⟩ ],
    edges :=
      [ ⟨"inputnode", "in_anat", "clip", "in_file"⟩,
        ⟨"clip", "out_file", "denoise", "input_image"⟩,
        ⟨"denoise", "output_image", "n4_correct", "input_image"⟩,
        ⟨"n4_correct", "output_image", "final_clip", "in_file"⟩,
        ⟨"final_clip", "out_file", "outputnode", "anat_preproc"⟩ ] }

/-! ### Surface reconstruction builders (workflows/anatomical/surfaces.py)

The midthickness sub-workflow built by `init_midthickness_wf` is embedded
in its parents as a black-box node whose ports are the virtual
`inputnode.*` / `outputnode.*` ports of the sub-graph.  The `precomputed`
argument enters the builders only through the key set of
`precomputed['transforms']`, modelled as a list of keys. -/

/-- The `SURFACE_OUTPUTS` list: the fields declared on the surface builders outputnode. -/
def SURFACE_OUTPUTS : List String :=
  ["subjects_dir", "subject_id", "anat2fsnative_xfm", "fsnative2anat_xfm"]

/-- The outputnode fields fed only by the optional fsnative-registration
branch of the surface builders. -/
def fsnativeXfmFields : List String := ["anat2fsnative_xfm", "fsnative2anat_xfm"]

/-- Embedding of `init_infantfs_surface_recon_wf`. -/
def init_infantfs_surface_recon_wf (age_months : Nat)
    (precomputedTransforms : List String) (omp_nthreads : Nat)
    (use_aseg : Bool) (name : String) : Workflow :=
  let baseNodes : List WfNode :=
    [ ⟨"inputnode", "IdentityInterface(SURFACE_INPUTS)"⟩,
      ⟨"outputnode", "IdentityInterface(SURFACE_OUTPUTS)"⟩,
      ⟨"gen_recon_outdir", "Function(_gen_recon_dir)"⟩,
      ⟨"reconall", "InfantReconAll(age=" ++ toString age_months ++ ")"⟩,
      ⟨"fssource", "FreeSurferSource()"⟩,
      ⟨"make_midthickness_wf", "init_midthickness_wf(omp_nthreads="
        ++ toString omp_nthreads ++ ")"⟩ ]
  let asegEdges : List WfEdge :=
    if use_aseg then [⟨"inputnode", "in_aseg", "reconall", "aseg_file"⟩] else []
  let mainEdges : List WfEdge :=
    [ ⟨"inputnode", "subjects_dir", "gen_recon_outdir", "subjects_dir"⟩,
      ⟨"inputnode", "subject_id", "gen_recon_outdir", "subject_id"⟩,
      ⟨"inputnode", "skullstripped_t1", "reconall", "mask_file"⟩,
      ⟨"inputnode", "subject_id", "reconall", "subject_id"⟩,
      ⟨"gen_recon_outdir", "out", "reconall", "outdir"⟩,
      ⟨"reconall", "subject_id", "fssource", "subject_id"⟩,
      ⟨"reconall", "(outdir, _parent)", "fssource", "subjects_dir"⟩,
      ⟨"fssource", "white", "make_midthickness_wf", "inputnode.white"⟩,
      ⟨"fssource", "graymid", "make_midthickness_wf", "inputnode.graymid"⟩,
      ⟨"make_midthickness_wf", "outputnode.subjects_dir", "outputnode", "subjects_dir"⟩,
      ⟨"make_midthickness_wf", "outputnode.subject_id", "outputnode", "subject_id"⟩ ]
  let fsnativeNodes : List WfNode :=
    if precomputedTransforms.contains "fsnative" then []
    else
      [ ⟨"fsnative2anat_xfm", "RobustRegister(auto_sens, est_int_scale)"⟩,
        ⟨"anat2fsnative_xfm", "LTAConvert(out_lta=True, invert=True)"⟩ ]
  let fsnativeEdges : List WfEdge :=
    if precomputedTransforms.contains "fsnative" then []
    else
      [ ⟨"inputnode", "skullstripped_t1", "fsnative2anat_xfm", "target_file"⟩,
        ⟨"fssource", "(norm, _replace_mgz)", "fsnative2anat_xfm", "source_file"⟩,
        ⟨"fsnative2anat_xfm", "out_reg_file", "anat2fsnative_xfm", "in_lta"⟩,
        ⟨"fsnative2anat_xfm", "out_reg_file", "outputnode", "fsnative2anat_xfm"⟩,
        ⟨"anat2fsnative_xfm", "out_lta", "outputnode", "anat2fsnative_xfm"⟩ ]
  { name := name,
    nodes := baseNodes ++ fsnativeNodes,
    edges := asegEdges ++ mainEdges ++ fsnativeEdges }

/-- Embedding of `init_mcribs_surface_recon_wf`: raises NotImplementedError before any
node is created when no precomputed segmentation is available; otherwise
returns the assembled graph. -/
def init_mcribs_surface_recon_wf (omp_nthreads : Nat) (use_aseg use_mask : Bool)
    (precomputedTransforms : List String) (mcribs_dir : Option String)
    (name : String) : Except String Workflow :=
  if !use_aseg then
    Except.error
      "A previously computed segmentation is required for the M-CRIB-S workflow."
  else
    let mcribsReconIface : String :=
      "MCRIBReconAll(surfrecon=True, surfrecon_method=Deformable, join_thresh=1.0, "
        ++ "fast_collision=True, nthreads=" ++ toString omp_nthreads
        ++ (match mcribs_dir with
            | some d => ", outdir=" ++ d ++ ", remove_unnecessary_outputs=False"
            | none => "")
        ++ ")"
    let baseNodes : List WfNode :=
      [ ⟨"inputnode", "IdentityInterface(SURFACE_INPUTS)"⟩,
        ⟨"outputnode", "IdentityInterface(SURFACE_OUTPUTS)"⟩,
        ⟨"map_labels", "MapLabels(mappings=fs2mcribs)"⟩,
        ⟨"t2w_las", "ReorientImage(target_orientation=LAS)"⟩,
        ⟨"seg_las", "ReorientImage(target_orientation=LAS)"⟩,
        ⟨"mcribs_recon", mcribsReconIface⟩ ]
    let maskNodes : List WfNode :=
      if use_mask then
        [ ⟨"mask_dil", "BinaryDilation(radius=3)"⟩,
          ⟨"mask_las", "ReorientImage(target_orientation=LAS)"⟩ ]
      else []
    let maskEdges : List WfEdge :=
      if use_mask then
        [ ⟨"inputnode", "in_mask", "mask_dil", "in_mask"⟩,
          ⟨"mask_dil", "out_mask", "mask_las", "in_file"⟩,
          ⟨"mask_las", "out_file", "mcribs_recon", "mask_file"⟩ ]
      else []
    let tailNodes : List WfNode :=
      [ ⟨"mcribs_postrecon", "MCRIBReconAll(autorecon_after_surf=True, nthreads="
          ++ toString omp_nthreads ++ ")"⟩,
        ⟨"fssource", "FreeSurferSource()"⟩,
        ⟨"make_midthickness_wf", "init_midthickness_wf(omp_nthreads="
          ++ toString omp_nthreads ++ ")"⟩ ]
    let mainEdges : List WfEdge :=
      [ ⟨"inputnode", "t2w", "t2w_las", "in_file"⟩,
        ⟨"inputnode", "in_aseg", "map_labels", "in_file"⟩,
        ⟨"map_labels", "out_file", "seg_las", "in_file"⟩,
        ⟨"inputnode", "subjects_dir", "mcribs_recon", "subjects_dir"⟩,
        ⟨"inputnode", "subject_id", "mcribs_recon", "subject_id"⟩,
        ⟨"t2w_las", "out_file", "mcribs_recon", "t2w_file"⟩,
        ⟨"seg_las", "out_file", "mcribs_recon", "segmentation_file"⟩,
        ⟨"inputnode", "subjects_dir", "mcribs_postrecon", "subjects_dir"⟩,
        ⟨"inputnode", "subject_id", "mcribs_postrecon", "subject_id"⟩,
        ⟨"mcribs_recon", "mcribs_dir", "mcribs_postrecon", "outdir"⟩,
        ⟨"mcribs_postrecon", "subjects_dir", "fssource", "subjects_dir"⟩,
        ⟨"inputnode", "subject_id", "fssource", "inputnode.subject_id"⟩,
        ⟨"fssource", "white", "make_midthickness_wf", "inputnode.white"⟩,
        ⟨"fssource", "graymid", "make_midthickness_wf", "inputnode.graymid"⟩,
        ⟨"make_midthickness_wf", "outputnode.subjects_dir", "outputnode", "subjects_dir"⟩,
        ⟨"make_midthickness_wf", "outputnode.subject_id", "outputnode", "subject_id"⟩ ]
    let fsnativeNodes : List WfNode :=
      if precomputedTransforms.contains "fsnative" then []
      else
        [ ⟨"fsnative2anat_xfm", "RobustRegister(auto_sens, est_int_scale)"⟩,
          ⟨"anat2fsnative_xfm", "LTAConvert(out_lta=True, invert=True)"⟩ ]
    let fsnativeEdges : List WfEdge :=
      if precomputedTransforms.contains "fsnative" then []
      else
        [ ⟨"inputnode", "t2w", "fsnative2anat_xfm", "target_file"⟩,
          ⟨"fssource", "T2", "fsnative2anat_xfm", "source_file"⟩,
          ⟨"fsnative2anat_xfm", "out_reg_file", "outputnode", "fsnative2anat_xfm"⟩,
          ⟨"fsnative2anat_xfm", "out_reg_file", "anat2fsnative_xfm", "in_lta"⟩,
          ⟨"anat2fsnative_xfm", "out_lta", "outputnode", "anat2fsnative_xfm"⟩ ]
    Except.ok
      { name := name,
        nodes := baseNodes ++ maskNodes ++ tailNodes ++ fsnativeNodes,
        edges := maskEdges ++ mainEdges ++ fsnativeEdges }

end Nibabies

namespace Nibabies

example : getTransformFilenames ["a", "b"] [] =
    Except.ok "--transform a --transform b" := rfl

example : getTransformFilenames ["a", "b"] [true, false] =
    Except.ok "--transform [ a, 1 ] --transform b" := rfl

example : getTransformFilenames ["a", "b"] [false, true] =
    Except.ok "--transform a --transform [ b, 1 ]" := rfl

example (x : Nat) (f : String → Bool → Nat → Nat) :
    applyChain f (effectiveChain ["A", "B"] []) x = f "A" false (f "B" false x) := rfl

example : hasNode (init_coregistration_wf 200 false false true true "c") "t2w_masker" = true ∧
    hasNode (init_coregistration_wf 200 false false true true "c") "map_mask" = false := by
  decide

example : hasNode (init_coregistration_wf 200 false false false true "c") "thr_mask" = true := by
  decide

example : inEdges (init_coregistration_wf 200 false false false false "c")
    "outputnode" "t1w_mask" = 1 := by decide

example : hasEdge (init_coregister_derivatives_wf false true false "c")
    ⟨"t1waseg2t2w", "output_image", "outputnode", "t2w_aseg"⟩ = true := by decide

example : hasEdge (init_coregister_derivatives_wf false true false "c")
    ⟨"t1waseg2t2w", "output_image", "outputnode", "t1w_aseg"⟩ = false := by decide

/-! ## Supporting lemmas -/

theorem zipWith_xfmArg_default (ts : List String) :
    List.zipWith xfmArg ts (List.replicate ts.length false) =
      ts.map (fun t => "--transform " ++ t) := by
  induction ts with
  | nil => rfl
  | cons t rest ih => simp [List.replicate_succ, xfmArg, ih]

theorem zip_replicate_false (ts : List String) :
    List.zip ts (List.replicate ts.length false) = ts.map (fun t => (t, false)) := by
  induction ts with
  | nil => rfl
  | cons t rest ih => simp [List.replicate_succ, ih]

theorem zipWith_map_same {α β γ δ : Type} (f : β → γ → δ) (g : α → β) (h : α → γ) :
    ∀ l : List α, List.zipWith f (l.map g) (l.map h) = l.map (fun x => f (g x) (h x))
  | [] => rfl
  | x :: rest => by simp [zipWith_map_same f g h rest]

theorem wfStructEq_refl (g : Workflow) : wfStructEq g g = true :=
  decide_eq_true ⟨rfl, rfl, rfl⟩

theorem wfResultStructEq_refl (x : Except String Workflow) :
    wfResultStructEq x x = true := by
  cases x with
  | error e => simp [wfResultStructEq]
  | ok g => simpa [wfResultStructEq] using wfStructEq_refl g

theorem lookupSpec_setSpec_self (d : Specs) (k : String) (v : Nat) :
    lookupSpec (setSpec d k v) k = some v := by
  induction d with
  | nil => simp [setSpec, lookupSpec]
  | cons p rest ih =>
    obtain ⟨k0, v0⟩ := p
    by_cases h0 : (k0 == k) = true
    · simp [setSpec, lookupSpec, h0]
    · simp only [Bool.not_eq_true] at h0
      simp [setSpec, lookupSpec, h0, ih]

theorem lookupSpec_setSpec_ne (d : Specs) (k key : String) (v : Nat)
    (h : (k == key) = false) :
    lookupSpec (setSpec d k v) key = lookupSpec d key := by
  induction d with
  | nil => simp [setSpec, lookupSpec, h]
  | cons p rest ih =>
    obtain ⟨k0, v0⟩ := p
    by_cases h0 : (k0 == k) = true
    · have hk0 : k0 = k := eq_of_beq h0
      subst hk0
      simp [setSpec, lookupSpec, h0, h]
    · simp only [Bool.not_eq_true] at h0
      simp [setSpec, lookupSpec, h0, ih]

theorem cohortMissing_afterResolution (skull : String) (sloppy : Bool) (d : Specs)
    (h : lookupSpec d "cohort" = none) :
    cohortMissing (afterResolution skull sloppy d) = true := by
  unfold afterResolution cohortMissing
  by_cases hs : (skull == "MNIInfant") = true
  · rw [if_pos hs, lookupSpec_setSpec_ne _ _ _ _ (by decide), h]
  · simp only [Bool.not_eq_true] at hs
    rw [if_neg (by simp [hs]), h]

theorem string_data_append (s t : String) : (s ++ t).data = s.data ++ t.data := rfl

theorem chain_shift_ne : ∀ (n : Nat) (a b : List Char), a.length ≤ n →
    '[' :: ' ' :: (a ++ (',' :: ' ' :: '1' :: ' ' :: ']' :: ' ' :: '-' :: '-' :: 't'
      :: 'r' :: 'a' :: 'n' :: 's' :: 'f' :: 'o' :: 'r' :: 'm' :: ' ' :: b))
    ≠ a ++ (' ' :: '-' :: '-' :: 't' :: 'r' :: 'a' :: 'n' :: 's' :: 'f' :: 'o'
      :: 'r' :: 'm' :: ' ' :: '[' :: ' ' :: (b ++ [',', ' ', '1', ' ', ']'])) := by
  intro n
  induction n with
  | zero =>
    intro a b hlen h
    have ha : a = [] := List.length_eq_zero.mp (Nat.le_zero.mp hlen)
    subst ha
    simp only [List.nil_append] at h
    injection h with h1 _
    exact absurd h1 (by decide)
  | succ n ih =>
    intro a b hlen h
    cases a with
    | nil =>
      simp only [List.nil_append] at h
      injection h with h1 _
      exact absurd h1 (by decide)
    | cons c1 a1 =>
      cases a1 with
      | nil =>
        simp only [List.cons_append, List.nil_append] at h
        injection h with h1 h2
        injection h2 with h3 h4
        injection h4 with h5 _
        rw [← h1] at h5
        exact absurd h5 (by decide)
      | cons c2 a2 =>
        simp only [List.cons_append] at h
        injection h with h1 h2
        injection h2 with h3 h4
        rw [← h1, ← h3] at h4
        have hlen2 : a2.length ≤ n := by
          simp only [List.length_cons] at hlen
          omega
        exact ih a2 b hlen2 h4

/-! ## Claim theorems -/

/-- C1: with the invert-flags list absent, `ConcatXFM` generates one
`--transform t` argument per transform, in declaration order and without
inversion markers; the chain handed to the external tool pairs every
transform with an unset invert flag, and — under the tool's convention of
applying the last-specified transform first — applying the composite equals
applying the transforms in reverse declaration order, all uninverted; in
particular the composite of `[A, B]` applies `B` then `A`. -/
theorem concatxfm_default_order (ts : List String) :
    getTransformFilenames ts [] =
      Except.ok (joinSpace (ts.map (fun t => "--transform " ++ t)))
    ∧ effectiveChain ts [] = ts.map (fun t => (t, false))
    ∧ (∀ (α : Type) (apply : String → Bool → α → α) (x : α),
        applyChain apply (effectiveChain ts []) x =
          (ts.reverse).foldl (fun acc t => apply t false acc) x)
    ∧ (∀ (α : Type) (apply : String → Bool → α → α) (x : α) (A B : String),
        applyChain apply (effectiveChain [A, B] []) x = apply A false (apply B false x)) := by
  refine ⟨?_, ?_, ?_, ?_⟩
  · simp [getTransformFilenames, zipWith_xfmArg_default]
  · simp [effectiveChain, zip_replicate_false]
  · intro α apply x
    simp [effectiveChain, zip_replicate_false, applyChain, List.foldr_map,
      List.foldl_reverse]
  · intro α apply x A B
    rfl

/-- C3: a present, non-empty invert-flags list whose length differs from the
transforms list makes `ConcatXFM`'s argument construction raise the
ValueError before any composite command is produced. -/
theorem concatxfm_arity_mismatch (ts : List String) (invert : List Bool)
    (hne : invert ≠ []) (hlen : invert.length ≠ ts.length) :
    getTransformFilenames ts invert =
      Except.error ("ERROR: The invert_transform_flags list must have the same number "
        ++ "of entries as the transforms list.") := by
  have h1 : invert.isEmpty = false := by
    cases invert with
    | nil => exact absurd rfl hne
    | cons a l => rfl
  have h2 : ts.length ≠ invert.length := fun h => hlen h.symm
  simp [getTransformFilenames, h1, h2]

/-- Witness for C3: transforms of length 2 with a single invert flag raise. -/
theorem concatxfm_arity_mismatch_witness :
    getTransformFilenames ["xfm0.h5", "xfm1.h5"] [true] =
      Except.error ("ERROR: The invert_transform_flags list must have the same number "
        ++ "of entries as the transforms list.") :=
  concatxfm_arity_mismatch ["xfm0.h5", "xfm1.h5"] [true] (by decide) (by decide)

/-- C6: building the `ConcatXFM` composite specification from `[A, B]` with
invert flags `[True, False]` yields a different command
(`--transform [ A, 1 ] --transform B`) than with `[False, True]`
(`--transform A --transform [ B, 1 ]`): for every pair of distinct
transforms the two composites are never equal — invert flags attach
positionally and are not order-invariant. -/
theorem invert_flags_not_order_invariant (A B : String) (hAB : A ≠ B) :
    getTransformFilenames [A, B] [true, false] ≠
      getTransformFilenames [A, B] [false, true] := by
  intro h
  have h2 : (("--transform [ " ++ A ++ ", 1 ]") ++ " " ++ ("--transform " ++ B)) =
      (("--transform " ++ A) ++ " " ++ ("--transform [ " ++ B ++ ", 1 ]")) :=
    Except.ok.inj h
  have hdL : (("--transform [ " ++ A ++ ", 1 ]") ++ " " ++ ("--transform " ++ B)).data =
      ("--transform " : String).data ++
        ('[' :: ' ' :: (A.data ++ (',' :: ' ' :: '1' :: ' ' :: ']' :: ' ' :: '-' :: '-'
          :: 't' :: 'r' :: 'a' :: 'n' :: 's' :: 'f' :: 'o' :: 'r' :: 'm' :: ' '
          :: B.data))) := by
    simp only [string_data_append, List.append_assoc]
    rfl
  have hdR : (("--transform " ++ A) ++ " " ++ ("--transform [ " ++ B ++ ", 1 ]")).data =
      ("--transform " : String).data ++
        (A.data ++ (' ' :: '-' :: '-' :: 't' :: 'r' :: 'a' :: 'n' :: 's' :: 'f' :: 'o'
          :: 'r' :: 'm' :: ' ' :: '[' :: ' ' :: (B.data ++ [',', ' ', '1', ' ', ']'])))
      := by
    simp only [string_data_append, List.append_assoc]
    rfl
  have h3 := congrArg String.data h2
  rw [hdL, hdR] at h3
  have h4 := List.append_cancel_left h3
  exact chain_shift_ne A.data.length A.data B.data (le_refl _) h4

/-- Witness for C6 on a concrete distinct pair of transforms. -/
theorem invert_flags_not_order_invariant_witness :
    getTransformFilenames ["xfm0.h5", "xfm1.h5"] [true, false] ≠
      getTransformFilenames ["xfm0.h5", "xfm1.h5"] [false, true] :=
  invert_flags_not_order_invariant "xfm0.h5" "xfm1.h5" (by decide)

/-- C2: `init_coregistration_wf` instantiates exactly one mask-handling
branch, in priority order precomputed-T1w-mask (node `t2w_masker`), then
probability-map (nodes `map_mask`, `thr_mask`), then the fallback
precomputed-discrete-mask branch (node `map_precomp_mask`); the nodes of
the non-selected branches never appear in the graph. -/
theorem coregistration_branch_selection (b : Nat) (sloppy debug t1w_mask probmap : Bool)
    (nm : String) :
    hasNode (init_coregistration_wf b sloppy debug t1w_mask probmap nm) "t2w_masker"
        = t1w_mask
    ∧ hasNode (init_coregistration_wf b sloppy debug t1w_mask probmap nm) "map_mask"
        = (!t1w_mask && probmap)
    ∧ hasNode (init_coregistration_wf b sloppy debug t1w_mask probmap nm) "thr_mask"
        = (!t1w_mask && probmap)
    ∧ hasNode (init_coregistration_wf b sloppy debug t1w_mask probmap nm) "map_precomp_mask"
        = (!t1w_mask && !probmap) := by
  cases t1w_mask <;> cases probmap <;> exact ⟨rfl, rfl, rfl, rfl⟩

/-- Counterexample to C7 as stated: with only `t1w_aseg` set, the branch
node `t1waseg2t2w` is present but has no connection to output field
`t1w_aseg` (its connection goes to `t2w_aseg`), so the claimed
flag-to-field pairing fails. -/
theorem coregister_derivatives_pairing_counterexample :
    hasNode (init_coregister_derivatives_wf false true false "coregister_derivatives_wf")
        "t1waseg2t2w" = true
    ∧ hasEdge (init_coregister_derivatives_wf false true false "coregister_derivatives_wf")
        ⟨"t1waseg2t2w", "output_image", "outputnode", "t1w_aseg"⟩ = false
    ∧ inEdges (init_coregister_derivatives_wf false true false "coregister_derivatives_wf")
        "outputnode" "t1w_aseg" = 0
    ∧ hasEdge (init_coregister_derivatives_wf false true false "coregister_derivatives_wf")
        ⟨"t1waseg2t2w", "output_image", "outputnode", "t2w_aseg"⟩ = true := by
  exact ⟨rfl, rfl, rfl, rfl⟩

/-- C7 (amended): each flag of `init_coregister_derivatives_wf` instantiates
its branch node and that node's single connection to its dedicated output
field if and only if the flag is true — with the dedicated fields being
`t2w_mask` for `t1wmask2t2w`, `t2w_aseg` for `t1waseg2t2w` and `t1w_aseg`
for `t2waseg2t1w`; an output field whose flag is false receives no
connection, and no flag's branch depends on another flag. -/
theorem coregister_derivatives_branches (t1w_mask t1w_aseg t2w_aseg : Bool)
    (nm : String) :
    hasNode (init_coregister_derivatives_wf t1w_mask t1w_aseg t2w_aseg nm) "t1wmask2t2w"
        = t1w_mask
    ∧ hasEdge (init_coregister_derivatives_wf t1w_mask t1w_aseg t2w_aseg nm)
        ⟨"t1wmask2t2w", "output_image", "outputnode", "t2w_mask"⟩ = t1w_mask
    ∧ inEdges (init_coregister_derivatives_wf t1w_mask t1w_aseg t2w_aseg nm)
        "outputnode" "t2w_mask" = (if t1w_mask then 1 else 0)
    ∧ hasNode (init_coregister_derivatives_wf t1w_mask t1w_aseg t2w_aseg nm) "t1waseg2t2w"
        = t1w_aseg
    ∧ hasEdge (init_coregister_derivatives_wf t1w_mask t1w_aseg t2w_aseg nm)
        ⟨"t1waseg2t2w", "output_image", "outputnode", "t2w_aseg"⟩ = t1w_aseg
    ∧ inEdges (init_coregister_derivatives_wf t1w_mask t1w_aseg t2w_aseg nm)
        "outputnode" "t2w_aseg" = (if t1w_aseg then 1 else 0)
    ∧ hasNode (init_coregister_derivatives_wf t1w_mask t1w_aseg t2w_aseg nm) "t2waseg2t1w"
        = t2w_aseg
    ∧ hasEdge (init_coregister_derivatives_wf t1w_mask t1w_aseg t2w_aseg nm)
        ⟨"t2waseg2t1w", "output_image", "outputnode", "t1w_aseg"⟩ = t2w_aseg
    ∧ inEdges (init_coregister_derivatives_wf t1w_mask t1w_aseg t2w_aseg nm)
        "outputnode" "t1w_aseg" = (if t2w_aseg then 1 else 0) := by
  cases t1w_mask <;> cases t1w_aseg <;> cases t2w_aseg <;>
    exact ⟨rfl, rfl, rfl, rfl, rfl, rfl, rfl, rfl, rfl⟩

/-- C4: the count-driven replication of `init_concat_registrations_wf`
produces, for a templates list of length n, exactly n composite transforms,
n template names and n template specs, with the i-th entry of each derived
from the i-th input template (order preserved, pairing index-aligned). -/
theorem concat_registrations_replication
    (splitName splitSpec : String → String) (fmtName fmtSpec : String → String → String)
    (readable : String → String) (templates : List String)
    (intermediate anat2std : String) :
    (init_concat_registrations_dataflow splitName splitSpec fmtName fmtSpec readable
        templates intermediate anat2std).1.length = templates.length
    ∧ (init_concat_registrations_dataflow splitName splitSpec fmtName fmtSpec readable
        templates intermediate anat2std).2.1.length = templates.length
    ∧ (init_concat_registrations_dataflow splitName splitSpec fmtName fmtSpec readable
        templates intermediate anat2std).2.2.length = templates.length
    ∧ ∀ i : Nat,
        (init_concat_registrations_dataflow splitName splitSpec fmtName fmtSpec readable
            templates intermediate anat2std).1[i]? =
          (templates[i]?).map (fun std =>
            [(load_intermediate_xfms readable intermediate std).1, anat2std])
        ∧ (init_concat_registrations_dataflow splitName splitSpec fmtName fmtSpec readable
            templates intermediate anat2std).2.1[i]? =
          (templates[i]?).map (fun t => fmtName (splitName t) (splitSpec t))
        ∧ (init_concat_registrations_dataflow splitName splitSpec fmtName fmtSpec readable
            templates intermediate anat2std).2.2[i]? =
          (templates[i]?).map (fun t => fmtSpec (splitName t) (splitSpec t)) := by
  refine ⟨?_, ?_, ?_, ?_⟩
  · simp [init_concat_registrations_dataflow]
  · simp [init_concat_registrations_dataflow, zipWith_map_same]
  · simp [init_concat_registrations_dataflow, zipWith_map_same]
  · intro i
    refine ⟨?_, ?_, ?_⟩ <;>
      · simp only [init_concat_registrations_dataflow, zipWith_map_same,
          List.getElem?_map, List.map_map]
        try rfl

/-- C5: every field declared on an embedded builder's outputnode receives
exactly one inbound connection, or — for the additive fsnative-registration
branch of the surface builders — remains a declared field with no inbound
connection when the branch is off: all six outputnode fields of
`init_coregistration_wf` are connected exactly once in each of its three
branches, and in `init_infantfs_surface_recon_wf` with a precomputed
fsnative transform the fields `anat2fsnative_xfm` and `fsnative2anat_xfm`
stay declared while only `subjects_dir` and `subject_id` are fed. -/
theorem outputs_connected_once (b : Nat) (sloppy debug t1w_mask probmap : Bool)
    (nm nm2 : String) (age omp : Nat) (tfs : List String) (use_aseg : Bool)
    (hfs : tfs.contains "fsnative" = true) :
    (coregOutputFields.all (fun f =>
        inEdges (init_coregistration_wf b sloppy debug t1w_mask probmap nm)
          "outputnode" f == 1) = true)
    ∧ (SURFACE_OUTPUTS.all (fun f =>
        (inEdges (init_infantfs_surface_recon_wf age tfs omp use_aseg nm2)
            "outputnode" f == 1)
        || (fsnativeXfmFields.contains f
            && inEdges (init_infantfs_surface_recon_wf age tfs omp use_aseg nm2)
                "outputnode" f == 0)) = true)
    ∧ (fsnativeXfmFields.all (fun f => SURFACE_OUTPUTS.contains f) = true) := by
  refine ⟨?_, ?_, by decide⟩
  · cases t1w_mask <;> cases probmap <;> rfl
  · simp only [init_infantfs_surface_recon_wf, hfs]
    cases use_aseg <;> rfl

/-- C8: the graph-build entry points are deterministic — identical argument
tuples (including the opaque external lookups, passed explicitly) yield
structurally identical graphs, in particular for `init_preproc_anat_wf` and
`init_infant_brain_extraction_wf`. -/
theorem builders_deterministic
    (b1 b2 : Nat) (n1 n2 : String)
    (cbm1 cbm2 : String → Nat → Nat) (gt1 gt2 : String → Specs → Option String)
    (age1 age2 : Option Nat) (ai1 ai2 : AntsInit) (bb1 bb2 : Nat) (sl1 sl2 : Bool)
    (sk1 sk2 : String) (sp1 sp2 : Option Specs) (m1 m2 : String)
    (h1 : b1 = b2) (h2 : n1 = n2) (h3 : cbm1 = cbm2) (h4 : gt1 = gt2)
    (h5 : age1 = age2) (h6 : ai1 = ai2) (h7 : bb1 = bb2) (h8 : sl1 = sl2)
    (h9 : sk1 = sk2) (h10 : sp1 = sp2) (h11 : m1 = m2) :
    wfStructEq (init_preproc_anat_wf b1 n1) (init_preproc_anat_wf b2 n2) = true
    ∧ wfResultStructEq
        (init_infant_brain_extraction_wf cbm1 gt1 age1 ai1 bb1 sl1 sk1 sp1 m1)
        (init_infant_brain_extraction_wf cbm2 gt2 age2 ai2 bb2 sl2 sk2 sp2 m2) = true := by
  subst h1 h2 h3 h4 h5 h6 h7 h8 h9 h10 h11
  exact ⟨wfStructEq_refl _, wfResultStructEq_refl _⟩

/-- Witness for C8 at a concrete argument tuple. -/
theorem builders_deterministic_witness :
    wfStructEq (init_preproc_anat_wf 200 "preproc_anat_wf")
      (init_preproc_anat_wf 200 "preproc_anat_wf") = true
    ∧ wfResultStructEq
        (init_infant_brain_extraction_wf (fun _ m => m) (fun _ _ => none) (some 6)
          AntsInit.disabled 200 false "UNCInfant" none "infant_brain_extraction_wf")
        (init_infant_brain_extraction_wf (fun _ m => m) (fun _ _ => none) (some 6)
          AntsInit.disabled 200 false "UNCInfant" none "infant_brain_extraction_wf")
      = true :=
  builders_deterministic 200 200 "preproc_anat_wf" "preproc_anat_wf"
    (fun _ m => m) (fun _ m => m) (fun _ _ => none) (fun _ _ => none)
    (some 6) (some 6) AntsInit.disabled AntsInit.disabled 200 200 false false
    "UNCInfant" "UNCInfant" none none
    "infant_brain_extraction_wf" "infant_brain_extraction_wf"
    rfl rfl rfl rfl rfl rfl rfl rfl rfl rfl rfl

/-- C9: build-time configuration errors are raised during assembly, before
any node is created, and no partially assembled graph is returned:
`init_mcribs_surface_recon_wf` with `use_aseg` unset errors immediately,
and `init_infant_brain_extraction_wf` with no cohort in the template specs
and no age errors before any workflow node is instantiated. -/
theorem build_errors_fail_fast
    (omp : Nat) (use_mask : Bool) (tfs : List String) (dir : Option String)
    (nm : String) (cbm : String → Nat → Nat) (gt : String → Specs → Option String)
    (ai : AntsInit) (b : Nat) (sloppy : Bool) (skull nm2 : String)
    (sp : Option Specs) (hc : lookupSpec (usedDict sp) "cohort" = none) :
    init_mcribs_surface_recon_wf omp false use_mask tfs dir nm =
      Except.error
        "A previously computed segmentation is required for the M-CRIB-S workflow."
    ∧ init_infant_brain_extraction_wf cbm gt none ai b sloppy skull sp nm2 =
      Except.error ("Age or cohort for " ++ skull ++ " must be provided!") := by
  constructor
  · rfl
  · have hm := cohortMissing_afterResolution skull sloppy (usedDict sp) hc
    have hr : resolveTemplateSpecs cbm skull sloppy none sp =
        Except.error ("Age or cohort for " ++ skull ++ " must be provided!") := by
      unfold resolveTemplateSpecs
      simp [hm]
    unfold init_infant_brain_extraction_wf
    rw [hr]
    rfl

/-- Witness for C9 at concrete inputs: `use_aseg = False`, and template
specs without a cohort together with an absent age. -/
theorem build_errors_fail_fast_witness :
    init_mcribs_surface_recon_wf 1 false true [] none "mcribs_surface_recon_wf" =
      Except.error
        "A previously computed segmentation is required for the M-CRIB-S workflow."
    ∧ init_infant_brain_extraction_wf (fun _ m => m) (fun _ _ => none) none
        AntsInit.disabled 200 false "UNCInfant" (some [("resolution", 1)])
        "infant_brain_extraction_wf" =
      Except.error "Age or cohort for UNCInfant must be provided!" :=
  build_errors_fail_fast 1 true [] none "mcribs_surface_recon_wf"
    (fun _ m => m) (fun _ _ => none) AntsInit.disabled 200 false "UNCInfant"
    "infant_brain_extraction_wf" (some [("resolution", 1)]) (by decide)

/-- Counterexample to C10 as stated: passing an *empty* dict (not `None`)
also leaves the caller's dictionary untouched — the body replaces any falsy
`template_specs` with a fresh dict via `template_specs or {}` — even though
the call succeeds and resolves resolution and cohort on the fresh dict. -/
theorem template_specs_untouched_counterexample :
    callerSpecsAfter (fun _ _ => 1) "MNIInfant" false (some 6) (some []) = some []
    ∧ (some ([] : Specs) ≠ (none : Option Specs))
    ∧ resolveTemplateSpecs (fun _ _ => 1) "MNIInfant" false (some 6) (some []) =
        Except.ok [("resolution", 1), ("cohort", 1)] :=
  ⟨rfl, by decide, rfl⟩

/-- C10 (amended): `init_infant_brain_extraction_wf` mutates the caller's
`template_specs` dict in place — setting `resolution` to 2 (sloppy) or 1
for MNIInfant and `cohort` from `age_months` when no cohort is present — so
that on success the caller's dict is exactly the resolved specs the
workflow uses; the caller's dict is left untouched when `None` *or an
empty dict* is passed (both falsy, replaced by a fresh dict). -/
theorem template_specs_mutation_amended
    (cbm : String → Nat → Nat) (skull : String) (sloppy : Bool)
    (age : Option Nat) (d : Specs) :
    callerSpecsAfter cbm skull sloppy age none = none
    ∧ callerSpecsAfter cbm skull sloppy age (some []) = some []
    ∧ (d ≠ [] → ∀ u : Specs,
        resolveTemplateSpecs cbm skull sloppy age (some d) = Except.ok u →
        callerSpecsAfter cbm skull sloppy age (some d) = some u)
    ∧ (skull = "MNIInfant" →
        lookupSpec (mutateSpecs cbm skull sloppy age d) "resolution" =
          some (if sloppy then 2 else 1))
    ∧ (∀ a : Nat, age = some a →
        cohortMissing (afterResolution skull sloppy d) = true →
        lookupSpec (mutateSpecs cbm skull sloppy age d) "cohort" = some (cbm skull a)) := by
  have hcr : (("cohort" : String) == "resolution") = false := by decide
  refine ⟨rfl, rfl, ?_, ?_, ?_⟩
  · intro hd u hu
    have hne : d.isEmpty = false := by
      cases d with
      | nil => exact absurd rfl hd
      | cons p rest => rfl
    unfold resolveTemplateSpecs at hu
    unfold callerSpecsAfter mutateSpecs
    cases hcm : cohortMissing (afterResolution skull sloppy d) with
    | true =>
      cases age with
      | none => simp [usedDict, hne, hcm] at hu
      | some a =>
        simp [usedDict, hne, hcm] at hu
        simp [hd, hcm]
        exact hu
    | false =>
      simp [usedDict, hne, hcm] at hu
      simp [hd, hcm]
      exact hu
  · intro hsk
    subst hsk
    have haf : afterResolution "MNIInfant" sloppy d =
        setSpec d "resolution" (if sloppy then 2 else 1) := rfl
    unfold mutateSpecs
    rw [haf]
    cases hcm : cohortMissing (setSpec d "resolution" (if sloppy then 2 else 1)) with
    | true =>
      cases age with
      | none => simp [hcm, lookupSpec_setSpec_self]
      | some a =>
        simp only [hcm, if_true]
        rw [lookupSpec_setSpec_ne _ _ _ _ hcr, lookupSpec_setSpec_self]
    | false => simp [hcm, lookupSpec_setSpec_self]
  · intro a ha hcm
    subst ha
    unfold mutateSpecs
    simp [hcm, lookupSpec_setSpec_self]

/-- Witness for C10's amended statement: a non-empty caller dict, after a
successful call, holds exactly the resolved specs (resolution and cohort
set in place). -/
theorem template_specs_mutation_amended_witness :
    callerSpecsAfter (fun _ m => m) "MNIInfant" true (some 6) (some [("foo", 9)]) =
      some [("foo", 9), ("resolution", 2), ("cohort", 6)] :=
  (template_specs_mutation_amended (fun _ m => m) "MNIInfant" true (some 6)
      [("foo", 9)]).2.2.1 (by decide)
    [("foo", 9), ("resolution", 2), ("cohort", 6)] rfl

/-- Witness for C5: the concrete infantfs builder with `fsnative` among the
precomputed transforms leaves the two xfm output fields unconnected while
the rest are fed exactly once. -/
theorem outputs_connected_once_witness :
    SURFACE_OUTPUTS.all (fun f =>
        (inEdges (init_infantfs_surface_recon_wf 6 ["fsnative"] 1 false
            "infantfs_surface_recon_wf") "outputnode" f == 1)
        || (fsnativeXfmFields.contains f
            && inEdges (init_infantfs_surface_recon_wf 6 ["fsnative"] 1 false
                "infantfs_surface_recon_wf") "outputnode" f == 0)) = true :=
  (outputs_connected_once 200 false false false true "coregistration_wf"
    "infantfs_surface_recon_wf" 6 1 ["fsnative"] false (by decide)).2.1

end Nibabies
